/-
Verification development for the iot-trafficgen repository.

The Python sources are shallowly embedded as executable Lean definitions:
 * dictionaries (`dict[str, str]`, YAML mappings) become ordered association
   lists with Python's insertion semantics (update-in-place on existing key,
   append otherwise);
 * Python's substring test (`"_PLACEHOLDER" in value`) becomes `containsSub`;
 * fallible code returns `Except`/`Option`;
 * the floating point sensor state of the device swarm is modelled over `ℚ`.
-/
import Mathlib

/-! ## String and dictionary infrastructure -/

/-- Python substring membership on character lists: `pat` occurs contiguously in `s`. -/
def listContainsSub (pat : List Char) : List Char → Bool
  | [] => pat.isEmpty
  | c :: t => pat.isPrefixOf (c :: t) || listContainsSub pat t

/-- Python `pat in s` for strings. -/
def containsSub (s pat : String) : Bool :=
  listContainsSub pat.data s.data

/-- Lookup of the first binding of key `k` (Python `d.get(k)`; dict keys are unique). -/
def dictGet (d : List (String × String)) (k : String) : Option String :=
  match d with
  | [] => none
  | (k2, v) :: rest => if k2 = k then some v else dictGet rest k

/-- Python `d[k] = v`: replace the first binding of `k` in place, else append. -/
def dictSet (d : List (String × String)) (k : String) (v : String) :
    List (String × String) :=
  match d with
  | [] => [(k, v)]
  | (k2, v2) :: rest => if k2 = k then (k, v) :: rest else (k2, v2) :: dictSet rest k v

/-! ## Error taxonomy (`src/iottrafficgen/errors.py`) -/

/--
`detect_placeholders`: return one `KEY=VALUE` entry for every environment
binding whose value contains the literal substring `_PLACEHOLDER`
(`errors.py`, lines 134-148).  `Run.env` is declared `dict[str, str]`, so all
values are strings and the source's `isinstance(value, str)` guard is always
true in the embedded domain.
-/
def detect_placeholders (env : List (String × String)) : List String :=
  env.filterMap fun kv =>
    if containsSub kv.2 "_PLACEHOLDER" then some (kv.1 ++ "=" ++ kv.2) else none

/-- Message built by `PlaceholderNotConfiguredError.__init__` (`errors.py`, 69-74). -/
def placeholderErrorMessage (placeholders : List String) : String :=
  "Scenario contains unconfigured placeholders:\n     " ++
    String.intercalate "\n     " placeholders

/-- Hint built by `PlaceholderNotConfiguredError.__init__`; the `scenario`
argument is whatever path the caller passes. -/
def placeholderErrorHint (scenario : String) : String :=
  "Edit " ++ scenario ++ " and replace placeholder values with your configuration."

/-! ## YAML documents (`yaml.safe_load` output) -/

/-- Parsed YAML values. Mapping keys are strings, which covers every scenario
document in the repository. -/
inductive Yaml where
  | s (v : String)
  | i (v : Int)
  | b (v : Bool)
  | null
  | list (xs : List Yaml)
  | map (kvs : List (String × Yaml))

/-- First binding of `k` in a YAML mapping (dict keys are unique in Python). -/
def ymGet (kvs : List (String × Yaml)) (k : String) : Option Yaml :=
  match kvs with
  | [] => none
  | (k2, v) :: rest => if k2 = k then some v else ymGet rest k

/-- Python `d[k] = v` on a YAML mapping: replace in place, else append. -/
def ymSet (kvs : List (String × Yaml)) (k : String) (v : Yaml) :
    List (String × Yaml) :=
  match kvs with
  | [] => [(k, v)]
  | (k2, v2) :: rest => if k2 = k then (k, v) :: rest else (k2, v2) :: ymSet rest k v

/-- `data[k]` when `data` is a mapping. -/
def yamlGet (y : Yaml) (k : String) : Option Yaml :=
  match y with
  | .map kvs => ymGet kvs k
  | _ => none

/-- Python `v in xs` for a YAML sequence against a string: `==` matches only
the equal string element. -/
def yamlHasStr (xs : List Yaml) (v : String) : Bool :=
  xs.any fun y =>
    match y with
    | .s w => w = v
    | _ => false

/--
The claim-side notion of a document defining a field: key membership in a
mapping node; a non-mapping node defines no fields.  (This is *not* the
model of the membership tests the source executes — see `pyIn` for
Python `in`.)
-/
def Yaml.hasField : Yaml → String → Bool
  | .map kvs, k => (ymGet kvs k).isSome
  | _, _ => false

def Yaml.isList : Yaml → Bool
  | .list _ => true
  | _ => false

def Yaml.asList : Yaml → List Yaml
  | .list xs => xs
  | _ => []

/-! ## Scenario schema validation (`src/iottrafficgen/utils.py`, 46-80) -/

/--
Python `k in x` as the validator executes it: key membership on a mapping,
substring matching on a string, element equality against the string on a
sequence, and `TypeError` — which propagates out of the validator — on any
other node.
-/
def pyIn (k : String) (x : Yaml) : Except String Bool :=
  match x with
  | .map kvs => .ok (ymGet kvs k).isSome
  | .s v => .ok (containsSub v k)
  | .list xs => .ok (yamlHasStr xs k)
  | _ => .error "TypeError: argument is not iterable"

/--
Python `x[k]` for a string key `k`: mapping lookup; a string or sequence
node raises `TypeError` (their indices must be integers), likewise any other
node.  (`KeyError` cannot occur in the validator: every subscript follows a
successful membership test on the same node, and only a mapping passes both.)
-/
def pySubscript (x : Yaml) (k : String) : Except String Yaml :=
  match x with
  | .map kvs =>
    match ymGet kvs k with
    | some v => .ok v
    | none => .error "KeyError"
  | _ => .error "TypeError: not subscriptable by a string key"

/-- The `for i, run in enumerate(runs)` loop of `validate_scenario_schema`
(`utils.py`, 74-80): each `k not in run` membership test may itself raise;
the first failure wins. -/
def validateRuns (i : Nat) (runs : List Yaml) : Except String Unit :=
  match runs with
  | [] => .ok ()
  | r :: rs =>
    match pyIn "id" r with
    | .error e => .error e
    | .ok hasId =>
      if ¬ hasId then
        .error ("Run " ++ toString i ++ " missing required id field")
      else
        match pyIn "script" r with
        | .error e => .error e
        | .ok hasScript =>
          if ¬ hasScript then
            .error ("Run " ++ toString i ++ " missing required script field")
          else
            match pyIn "type" r with
            | .error e => .error e
            | .ok hasType =>
              if ¬ hasType then
                .error ("Run " ++ toString i ++ " missing required type field")
              else validateRuns (i + 1) rs

/--
`validate_scenario_schema` (`utils.py`, 46-80): structural checks in source
order with Python membership/subscript semantics.  The first failing check
raises `ValueError` with its message; a `TypeError` raised by `in` or by a
subscript on a malformed node propagates instead (the call fails either way).
-/
def validate_scenario_schema (data : Yaml) : Except String Unit :=
  match pyIn "scenario" data with
  | .error e => .error e
  | .ok hasScenario =>
    if ¬ hasScenario then .error "Missing required key scenario"
    else
      match pySubscript data "scenario" with
      | .error e => .error e
      | .ok scenario =>
        match pyIn "name" scenario with
        | .error e => .error e
        | .ok hasName =>
          if ¬ hasName then .error "Scenario must have name field"
          else
            match pyIn "runs" data with
            | .error e => .error e
            | .ok hasRuns =>
              if ¬ hasRuns then .error "Missing required key runs"
              else
                match pySubscript data "runs" with
                | .error e => .error e
                | .ok runs =>
                  if ¬ runs.isList then .error "runs must be a list"
                  else if runs.asList.length = 0 then
                    .error "Scenario must have at least one run"
                  else validateRuns 0 runs.asList

/-! ## Data model (`src/iottrafficgen/models.py`) -/

structure Run where
  id : String
  script : String
  run_type : String
  label : Option String
  profile : Option String
  env : List (String × String)

structure Profile where
  tool : String
  name : String
  description : String
  tool_args : String

structure RunResult where
  run_id : String
  duration_s : Int
  returncode : Int
  stdout : String
  stderr : String
  env_effective : List (String × String)
  outputs_dir : String

/-- The slice of `run_metadata.json` relevant here (`core.py`, 396-468);
each field is copied verbatim from the `RunResult`. -/
structure RunMetadata where
  run_id : String
  returncode : Int
  stdout : String
  stderr : String
  duration_s : Int
  env_effective : List (String × String)

/-- `save_run_metadata` (`core.py`, 396-468): serialize the result fields. -/
def save_run_metadata (result : RunResult) : RunMetadata :=
  { run_id := result.run_id
    returncode := result.returncode
    stdout := result.stdout
    stderr := result.stderr
    duration_s := result.duration_s
    env_effective := result.env_effective }

/-! ## Core execution engine (`src/iottrafficgen/core.py`, `execute_run`) -/

/-- Observed behavior of the child process for one (non-dry) execution:
`proc.returncode` after the final wait, the drained output, the wall-clock
seconds the execution phase consumed, and whether the user pressed Ctrl+C. -/
structure ChildObs where
  exitcode : Option Int
  output : String
  elapsed : Int
  userInterrupted : Bool

inductive ExecError where
  | placeholderNotConfigured (message : String) (hint : String)
  | scriptNotFound (script : String)
  | scriptNotFile (script : String)
  | scriptNotExec (script : String)
  | profileNotFound (path : String)

structure ExecOutcome where
  result : RunResult
  metadata : RunMetadata
  childLaunched : Bool
  metadataWritten : Bool

/-- `validate_script_executable` (`errors.py`, 111-131); the three filesystem
facts (exists / is a file / has the execute bit) are inputs of the model. -/
def validate_script_ok (script : String) (fsExists fsIsFile fsExecBit : Bool) :
    Except ExecError Unit :=
  if ¬ fsExists then .error (.scriptNotFound script)
  else if ¬ fsIsFile then .error (.scriptNotFile script)
  else if ¬ fsExecBit then .error (.scriptNotExec script)
  else .ok ()

/-- Strip leading and trailing whitespace from a character list. -/
def stripSpaces (cs : List Char) : List Char :=
  ((cs.dropWhile fun c => c.isWhitespace).reverse.dropWhile fun c =>
    c.isWhitespace).reverse

/-- Value of digit characters read in base 10. -/
def digitsVal (ds : List Char) : Nat :=
  ds.foldl (fun acc c => acc * 10 + (c.toNat - 48)) 0

/-- Python `int(s)` on the strings occurring in scenario environments:
surrounding whitespace is stripped, an optional sign precedes one or more
decimal digits.  (Python additionally accepts digit-group underscores, which
no scenario value uses.) -/
def pyParseInt (s : String) : Option Int :=
  match stripSpaces s.data with
  | [] => none
  | '-' :: rest =>
    if rest ≠ [] ∧ rest.all (·.isDigit) then some (-(digitsVal rest : Int)) else none
  | '+' :: rest =>
    if rest ≠ [] ∧ rest.all (·.isDigit) then some ((digitsVal rest : Int)) else none
  | l =>
    if l.all (·.isDigit) then some ((digitsVal l : Int)) else none

/-- `core.py`, 201-210: `has_duration` and `duration_secs` from the
environment: the value must be present, truthy (non-empty), and parse as an
integer. -/
def parseHasDuration (env : List (String × String)) : Bool × Int :=
  match dictGet env "DURATION_SECONDS" with
  | none => (false, 0)
  | some str =>
    if str = "" then (false, 0)
    else
      match pyParseInt str with
      | some d => (true, d)
      | none => (false, 0)

/--
The execution phase of `execute_run` (`core.py`, 194-364), after environment
assembly and validation.  Returns the `RunResult` and whether a child process
was launched.  Wall-clock advance is attributed to the child execution
(`child.elapsed`); a dry run launches nothing, so its measured duration is 0.
Exit-code normalization (`core.py`, 347-353): when the run was duration-bounded
or user-interrupted, a negative code or the codes 130/143 is recorded as 0.
-/
def runExecution (run_id_unique outputs_dir : String)
    (env : List (String × String)) (dryRun : Bool) (child : ChildObs) :
    RunResult × Bool :=
  if dryRun then
    ({ run_id := run_id_unique
       duration_s := 0
       returncode := 0
       stdout := "[dry run - no output]"
       stderr := ""
       env_effective := env
       outputs_dir := outputs_dir }, false)
  else
    let has_duration := (parseHasDuration env).1
    let rc0 := child.exitcode.getD 0
    let rc :=
      if has_duration || child.userInterrupted then
        if rc0 < 0 ∨ rc0 = 130 ∨ rc0 = 143 then 0 else rc0
      else rc0
    ({ run_id := run_id_unique
       duration_s := child.elapsed
       returncode := rc
       stdout := child.output
       stderr := ""
       env_effective := env
       outputs_dir := outputs_dir }, true)

/--
`execute_run` (`core.py`, 112-393).  Filesystem facts, profile loading and the
child process are inputs of the model; `timestamp` is the UTC second-resolution
stamp.  Control flow follows the source: assemble the environment (declared
`env` plus `RUN_ID` and `OUT_DIR`), scan it for placeholders, validate the
script, then (only then) load the referenced profile and inject `TOOL_ARGS`,
execute, and persist `run_metadata.json`.
-/
def execute_run (run : Run) (timestamp workspace : String)
    (fsExists fsIsFile fsExecBit : Bool)
    (loadProfile : String → Option Profile)
    (dryRun : Bool) (child : ChildObs) : Except ExecError ExecOutcome :=
  let run_id_unique := run.id ++ "_" ++ timestamp
  let outputs_dir := workspace ++ "/runs/" ++ run_id_unique ++ "/outputs"
  let env0 := dictSet (dictSet run.env "RUN_ID" run_id_unique) "OUT_DIR" outputs_dir
  let placeholders := detect_placeholders env0
  if placeholders ≠ [] then
    .error (.placeholderNotConfigured (placeholderErrorMessage placeholders)
      (placeholderErrorHint run.script))
  else
    match validate_script_ok run.script fsExists fsIsFile fsExecBit with
    | .error e => .error e
    | .ok _ =>
      let envLoaded : Except ExecError (List (String × String)) :=
        match run.profile with
        | none => .ok env0
        | some p =>
          match loadProfile p with
          | none => .error (.profileNotFound p)
          | some prof => .ok (dictSet env0 "TOOL_ARGS" prof.tool_args)
      match envLoaded with
      | .error e => .error e
      | .ok env =>
        let result := (runExecution run_id_unique outputs_dir env dryRun child).1
        .ok { result := result
              metadata := save_run_metadata result
              childLaunched := (runExecution run_id_unique outputs_dir env dryRun child).2
              metadataWritten := true }

/-! ## Scenario maintenance utility (`Add duration to yamls.py`) -/

/--
Loop body of `add_duration_to_yaml` for one run entry.  Returns the updated
entry and whether it was modified; `none` models a `TypeError` raised by the
source (`'DURATION_SECONDS' not in run['env']` or the item assignment on a
non-mapping), which the enclosing `except` catches, leaving the file
unrewritten.  A run without an `env` key is skipped (`continue`); an `env`
mapping already defining `DURATION_SECONDS` is left alone; otherwise the
placeholder binding is appended to the `env` mapping.  A string or sequence
`env` value first undergoes Python membership (`substring` / element `==`):
when that membership holds the run is skipped, otherwise the item assignment
raises.
-/
def addDurationRun (run : Yaml) : Option (Yaml × Bool) :=
  match run with
  | .map kvs =>
    match ymGet kvs "env" with
    | none => some (run, false)
    | some (.map envkvs) =>
      if (ymGet envkvs "DURATION_SECONDS").isSome then some (run, false)
      else
        some (.map (ymSet kvs "env" (.map (envkvs ++
          [("DURATION_SECONDS", .s "DURATION_SECONDS_PLACEHOLDER")]))), true)
    | some (.s v) =>
      if containsSub v "DURATION_SECONDS" then some (run, false) else none
    | some (.list ys) =>
      if yamlHasStr ys "DURATION_SECONDS" then some (run, false) else none
    | some _ => none
  | .s v => if containsSub v "env" then none else some (run, false)
  | .list xs => if yamlHasStr xs "env" then none else some (run, false)
  | _ => none

/-- The `for run in data['runs']` loop: first `TypeError` aborts the pass. -/
def addDurationRuns (runs : List Yaml) : Option (List Yaml × Bool) :=
  match runs with
  | [] => some ([], false)
  | r :: rs =>
    match addDurationRun r with
    | none => none
    | some (r2, m) =>
      match addDurationRuns rs with
      | none => none
      | some (rs2, ms) => some (r2 :: rs2, m || ms)

/--
`add_duration_to_yaml` (`Add duration to yamls.py`, 18-47), observed at the
file level: result is the on-disk document after the call and the returned
`modified` flag.  The source rewrites the file only when `modified` is true;
every failure path (falsy document, missing or non-sequence `runs` — whose
iteration either does nothing or raises — and any `TypeError` in the loop,
all caught by the `except`) leaves the file unchanged and returns `False`.
-/
def add_duration_to_yaml (data : Yaml) : Yaml × Bool :=
  match data with
  | .map kvs =>
    match ymGet kvs "runs" with
    | some (.list runs) =>
      match addDurationRuns runs with
      | none => (data, false)
      | some (runs2, modified) =>
        if modified then (.map (ymSet kvs "runs" (.list runs2)), true)
        else (data, false)
    | _ => (data, false)
  | _ => (data, false)

/-! ## IoT device swarm physics (`scripts/benign/IoT_DeviceSwarm.py`) -/

/-- Sensor state of one simulated device; the Python floats are modelled
over `ℚ`. -/
structure IotDevice where
  temp : ℚ
  battery : ℚ
  pressure : ℚ

/--
`IotDevice.update_physics` (`IoT_DeviceSwarm.py`, 104-114).  The four
`random.uniform` draws of one cycle are inputs: `dTemp ∈ [-0.5, 0.5]`,
`dBatt ∈ [0.001, 0.01]`, `dPress ∈ [-1, 1]`, `recharge ∈ [90, 100]` (the
last used only when the battery falls below 10).
-/
def update_physics (d : IotDevice) (dTemp dBatt dPress recharge : ℚ) : IotDevice :=
  let temp := max 15 (min (d.temp + dTemp) 90)
  let battery0 := d.battery - dBatt
  let battery := if battery0 < 10 then recharge else battery0
  let pressure := max 800 (d.pressure + dPress)
  { temp := temp, battery := battery, pressure := pressure }

/-! ## MQTT-to-SQL bridge (`scripts/benign/MQTT_Bridge.py`) -/

/-- JSON values as produced by `json.loads`; numbers are modelled over `ℚ`. -/
inductive JVal where
  | num (q : ℚ)
  | str (v : String)
  | bool (b : Bool)
  | null
  | arr (xs : List JVal)
  | obj (kvs : List (String × JVal))

/-- `payload.get(k)` on a JSON object. -/
def jGet (kvs : List (String × JVal)) (k : String) : Option JVal :=
  match kvs with
  | [] => none
  | (k2, v) :: rest => if k2 = k then some v else jGet rest k

/-- Python `x == 0`: true for the number 0 (int or float) and for `False`. -/
def pyEqZero : JVal → Bool
  | .num q => q = 0
  | .bool b => !b
  | _ => false

structure BridgeStats where
  received : Nat
  written : Nat
  errors : Nat

/--
`write_to_sql` (`MQTT_Bridge.py`, 69-99): extract `id` and `v` with defaults
`0` / `0.0`; skip silently when `id == 0`; otherwise issue one
`UPDATE sensores SET valor = %s, fecha = NOW() WHERE id = %s` with
`(v, id)`.  `dbOk` is the database outcome: on success the `written` counter
is incremented, on a database/unexpected error the `errors` counter is.
The second component is the parameter pair of the UPDATE that was issued
and committed, if any.
-/
def write_to_sql (stats : BridgeStats) (sensor_data : List (String × JVal))
    (dbOk : Bool) : BridgeStats × Option (JVal × JVal) :=
  let sensor_id := (jGet sensor_data "id").getD (.num 0)
  let data_val := (jGet sensor_data "v").getD (.num 0)
  if pyEqZero sensor_id then (stats, none)
  else if dbOk then
    ({ stats with written := stats.written + 1 }, some (data_val, sensor_id))
  else
    ({ stats with errors := stats.errors + 1 }, none)

/--
`on_message` (`MQTT_Bridge.py`, 112-124): `decoded` is the JSON parse of the
payload (`none` = decode failure, counted as an error).  On a decoded
payload the `received` counter is incremented; a non-object payload then
raises `AttributeError` on `data.get`, caught by the generic handler
(error counted, received increment already applied).  The threaded database
write is modelled synchronously: the thread reads only its own arguments
and its effect is confined to the counters and the issued UPDATE.
-/
def on_message (stats : BridgeStats) (decoded : Option JVal) (dbOk : Bool) :
    BridgeStats × Option (JVal × JVal) :=
  match decoded with
  | none => ({ stats with errors := stats.errors + 1 }, none)
  | some data =>
    let stats2 := { stats with received := stats.received + 1 }
    match data with
    | .obj kvs => write_to_sql stats2 kvs dbOk
    | _ => ({ stats2 with errors := stats2.errors + 1 }, none)

/-! ## DNS beacon label generation (`scripts/attacks/dns_beacon/dns_beaconing.py`) -/

/-- The beacon's lowercase-alphanumeric alphabet (36 characters). -/
def labelAlphabet : List Char := "abcdefghijklmnopqrstuvwxyz0123456789".data

/--
`high_entropy_label` (`dns_beaconing.py`, 45-48): clamp the requested length
to `[1, 63]` and draw that many characters from the alphabet.  `pick` models
the successive `rng.choice(alphabet)` index draws.
-/
def high_entropy_label (pick : Nat → Fin 36) (n : Int) : String :=
  String.mk ((List.range (max 1 (min 63 n)).toNat).map fun idx =>
    labelAlphabet.get (Fin.cast (by decide) (pick idx)))

/-! ## Concrete instances used by the closed witnesses -/

def c1Run : Run :=
  { id := "dns_beacon"
    script := "scripts/attacks/dns_beacon/dns_beaconing.py"
    run_type := "attack"
    label := none
    profile := none
    env := [("DURATION_SECONDS", "60")] }

def c1Child : ChildObs :=
  { exitcode := some 130, output := "beacon done", elapsed := 60, userInterrupted := false }

def c1Result : RunResult :=
  { run_id := "dns_beacon_20260101_120000"
    duration_s := 60
    returncode := 0
    stdout := "beacon done"
    stderr := ""
    env_effective := [("DURATION_SECONDS", "60"),
      ("RUN_ID", "dns_beacon_20260101_120000"),
      ("OUT_DIR", "lab/runs/dns_beacon_20260101_120000/outputs")]
    outputs_dir := "lab/runs/dns_beacon_20260101_120000/outputs" }

def c1Out : ExecOutcome :=
  { result := c1Result
    metadata := save_run_metadata c1Result
    childLaunched := true
    metadataWritten := true }

def c3RunSpec : Run :=
  { id := "swarm"
    script := "scripts/benign/IoT_DeviceSwarm.py"
    run_type := "benign"
    label := none
    profile := none
    env := [("BROKER_IP", "10.0.0.2")] }

def c3Child : ChildObs :=
  { exitcode := none, output := "", elapsed := 0, userInterrupted := false }

def c3Result : RunResult :=
  { run_id := "swarm_20260101_120000"
    duration_s := 0
    returncode := 0
    stdout := "[dry run - no output]"
    stderr := ""
    env_effective := [("BROKER_IP", "10.0.0.2"),
      ("RUN_ID", "swarm_20260101_120000"),
      ("OUT_DIR", "lab/runs/swarm_20260101_120000/outputs")]
    outputs_dir := "lab/runs/swarm_20260101_120000/outputs" }

def c3Out : ExecOutcome :=
  { result := c3Result
    metadata := save_run_metadata c3Result
    childLaunched := false
    metadataWritten := true }

def c9Run : Run :=
  { id := "dos_mqtt_flood"
    script := "scripts/attacks/denial_of_service/mqtt_flood.py"
    run_type := "attack"
    label := none
    profile := none
    env := [("TARGET_IP", "TARGET_IP_PLACEHOLDER"), ("RATE", "500")] }

def c9Child : ChildObs :=
  { exitcode := some 0, output := "", elapsed := 0, userInterrupted := false }

def c10Run : Run :=
  { id := "nmap_scan"
    script := "scripts/attacks/recon.sh"
    run_type := "attack"
    label := none
    profile := some "profiles/nmap_fast.yaml"
    env := [("TARGET_IP", "10.0.0.9")] }

def c10Profile : Profile :=
  { tool := "nmap"
    name := "fast"
    description := ""
    tool_args := "TOOL_ARGS_PLACEHOLDER" }

def c10LoadProfile : String → Option Profile :=
  fun p => if p = "profiles/nmap_fast.yaml" then some c10Profile else none

def c10Child : ChildObs :=
  { exitcode := some 0, output := "scan done", elapsed := 3, userInterrupted := false }

def c5Run : Yaml :=
  .map [("id", .s "dos_syn"), ("script", .s "flood.py"), ("type", .s "attack"),
    ("env", .map [("TARGET_IP", .s "TARGET_IP_PLACEHOLDER")])]

def c5Run2 : Yaml :=
  .map [("id", .s "dos_syn"), ("script", .s "flood.py"), ("type", .s "attack"),
    ("env", .map [("TARGET_IP", .s "TARGET_IP_PLACEHOLDER"),
      ("DURATION_SECONDS", .s "DURATION_SECONDS_PLACEHOLDER")])]

def c5Doc : Yaml :=
  .map [("scenario", .map [("name", .s "dos")]), ("runs", .list [c5Run])]

def c8Pick : Nat → Fin 36 := fun _ => ⟨16, by decide⟩

/-- A document whose `scenario` node is a bare string containing the text
`name`, with an otherwise complete `runs` list. -/
def c2CounterDoc : Yaml :=
  .map [("scenario", .s "my scan name"),
    ("runs", .list [.map [("id", .s "r1"), ("script", .s "flood.py"),
      ("type", .s "attack")]])]

/-- A mapping-shaped document with `scenario.name` but no `runs` key. -/
def c2WitnessDoc : Yaml :=
  .map [("scenario", .map [("name", .s "demo")])]

/-! ## Lemmas and claim theorems -/

theorem listContainsSub_iff (pat s : List Char) :
    listContainsSub pat s = true ↔ pat <:+: s := by
  induction s with
  | nil =>
    simp [listContainsSub, List.isEmpty_iff]
  | cons c t ih =>
    simp [listContainsSub, List.infix_cons_iff, ih, List.isPrefixOf_iff_prefix,
      Bool.or_eq_true]

theorem containsSub_iff (s pat : String) :
    containsSub s pat = true ↔ ∃ a b, a ++ pat.data ++ b = s.data := by
  rw [containsSub, listContainsSub_iff]
  exact Iff.rfl

theorem dictGet_dictSet_self (d : List (String × String)) (k v : String) :
    dictGet (dictSet d k v) k = some v := by
  induction d with
  | nil => simp [dictGet, dictSet]
  | cons kv rest ih =>
    obtain ⟨k2, v2⟩ := kv
    by_cases h : k2 = k <;> simp [dictGet, dictSet, h, ih]

theorem dictGet_dictSet_ne (d : List (String × String)) (k k2 v : String)
    (h : k2 ≠ k) : dictGet (dictSet d k v) k2 = dictGet d k2 := by
  induction d with
  | nil => simp [dictGet, dictSet, Ne.symm h]
  | cons kv rest ih =>
    obtain ⟨k3, v3⟩ := kv
    by_cases h3 : k3 = k
    · have hk3 : k3 ≠ k2 := by
        rw [h3]
        exact Ne.symm h
      simp [dictSet, h3, dictGet, hk3, Ne.symm h]
    · by_cases h4 : k3 = k2 <;> simp [dictGet, dictSet, h3, h4, h, ih]

theorem ymGet_ymSet_self (kvs : List (String × Yaml)) (k : String) (v : Yaml) :
    ymGet (ymSet kvs k v) k = some v := by
  induction kvs with
  | nil => simp [ymGet, ymSet]
  | cons kv rest ih =>
    obtain ⟨k2, v2⟩ := kv
    by_cases h : k2 = k <;> simp [ymGet, ymSet, h, ih]

theorem hasField_map (kvs : List (String × Yaml)) (k : String) :
    Yaml.hasField (.map kvs) k = (ymGet kvs k).isSome := rfl

theorem validateRuns_ok_iff (i : Nat) (runs : List Yaml)
    (hshape : ∀ r ∈ runs, ∃ kvs, r = Yaml.map kvs) :
    validateRuns i runs = Except.ok () ↔
      ∀ r ∈ runs, Yaml.hasField r "id" = true ∧
        Yaml.hasField r "script" = true ∧ Yaml.hasField r "type" = true := by
  induction runs generalizing i with
  | nil => simp [validateRuns]
  | cons r rs ih =>
    obtain ⟨kvs, rfl⟩ := hshape r (List.mem_cons_self r rs)
    have htail : ∀ x ∈ rs, ∃ k2, x = Yaml.map k2 := fun x hx =>
      hshape x (List.mem_cons_of_mem _ hx)
    by_cases hid : (ymGet kvs "id").isSome
    · by_cases hscr : (ymGet kvs "script").isSome
      · by_cases hty : (ymGet kvs "type").isSome
        · simp [validateRuns, pyIn, hid, hscr, hty, hasField_map,
            ih (i + 1) htail, List.forall_mem_cons]
        · simp [validateRuns, pyIn, hid, hscr, hty, hasField_map,
            List.forall_mem_cons]
      · simp [validateRuns, pyIn, hid, hscr, hasField_map,
          List.forall_mem_cons]
    · simp [validateRuns, pyIn, hid, hasField_map, List.forall_mem_cons]

theorem fields_missing_of_not_forall (xs : List Yaml)
    (h : ¬ ∀ r ∈ xs, Yaml.hasField r "id" = true ∧
      Yaml.hasField r "script" = true ∧ Yaml.hasField r "type" = true) :
    ∃ r ∈ xs, Yaml.hasField r "id" = false ∨ Yaml.hasField r "script" = false ∨
      Yaml.hasField r "type" = false := by
  by_contra hc
  push_neg at hc
  apply h
  intro r hr
  have h3 := hc r hr
  simpa using h3

/--
C2 counterexample: the document `{scenario: "my scan name", runs: [one
complete run]}` passes the real validator — Python's `"name" not in
scenario` is a substring test on the string node, and `name` occurs in
`my scan name` — even though `scenario.name` is missing (the `scenario`
node is not a mapping and defines no fields).  This falsifies the claimed
iff as stated: a document missing `scenario.name` does not fail validation.
-/
theorem c2_counterexample :
    validate_scenario_schema c2CounterDoc = Except.ok () ∧
    Yaml.hasField ((yamlGet c2CounterDoc "scenario").getD .null) "name" =
      false := by
  constructor
  · rfl
  · rfl

/--
C2 (amended): provided the `scenario` value (when present) is a mapping and
every entry of a list-valued `runs` is a mapping — the shape of every real
scenario document — validation fails exactly when the document is missing
the top-level `scenario` key, missing `scenario.name`, missing the
top-level `runs` key, has `runs` not a list, has `runs` empty, or has some
run entry missing `id`, `script`, or `type`; otherwise it returns without
error.  (Outside that shape Python's `in` degenerates to substring/element
matching and the equivalence fails — see `c2_counterexample`.)
-/
theorem c2_validate_scenario_schema_fails_iff (data : Yaml)
    (hscen : ∀ v, yamlGet data "scenario" = some v → ∃ kvs, v = Yaml.map kvs)
    (hruns : ∀ xs r, yamlGet data "runs" = some (.list xs) → r ∈ xs →
      ∃ kvs, r = Yaml.map kvs) :
    validate_scenario_schema data ≠ Except.ok () ↔
      (Yaml.hasField data "scenario" = false ∨
       Yaml.hasField ((yamlGet data "scenario").getD .null) "name" = false ∨
       Yaml.hasField data "runs" = false ∨
       ((yamlGet data "runs").getD .null).isList = false ∨
       ((yamlGet data "runs").getD .null).asList = [] ∨
       ∃ r ∈ ((yamlGet data "runs").getD .null).asList,
         (Yaml.hasField r "id" = false ∨ Yaml.hasField r "script" = false ∨
          Yaml.hasField r "type" = false)) := by
  cases data with
  | map kvs =>
    by_cases h1 : (ymGet kvs "scenario").isSome
    · obtain ⟨v, hv⟩ := Option.isSome_iff_exists.mp h1
      obtain ⟨skvs, rfl⟩ := hscen v (by simpa [yamlGet] using hv)
      by_cases h2 : (ymGet skvs "name").isSome
      · by_cases h3 : (ymGet kvs "runs").isSome
        · obtain ⟨rv, hrv⟩ := Option.isSome_iff_exists.mp h3
          cases rv with
          | list xs =>
            by_cases h4 : xs = []
            · subst h4
              simp [validate_scenario_schema, pyIn, pySubscript, hv, h2, hrv,
                hasField_map, Yaml.hasField, Yaml.isList, Yaml.asList, yamlGet]
            · have hshape : ∀ r ∈ xs, ∃ k2, r = Yaml.map k2 := fun r hr =>
                hruns xs r (by simpa [yamlGet] using hrv) hr
              have hok := validateRuns_ok_iff 0 xs hshape
              by_cases h5 : validateRuns 0 xs = Except.ok ()
              · have hall := hok.mp h5
                have hnone : ¬ ∃ r ∈ xs,
                    (Yaml.hasField r "id" = false ∨
                     Yaml.hasField r "script" = false ∨
                     Yaml.hasField r "type" = false) := by
                  rintro ⟨r, hrr, hcase⟩
                  rcases hall r hrr with ⟨ha, hb, hc2⟩
                  rcases hcase with h | h | h <;> simp_all
                simp [validate_scenario_schema, pyIn, pySubscript, hv, h2,
                  hrv, h4, h5, hasField_map, Yaml.isList, Yaml.asList,
                  yamlGet, List.length_eq_zero, hnone]
              · have hex := fields_missing_of_not_forall xs
                  (fun hall => h5 (hok.mpr hall))
                simp [validate_scenario_schema, pyIn, pySubscript, hv, h2,
                  hrv, h4, h5, hasField_map, Yaml.isList, Yaml.asList,
                  yamlGet, List.length_eq_zero, hex]
          | s v2 =>
            simp [validate_scenario_schema, pyIn, pySubscript, hv, h2, hrv,
              Yaml.hasField, Yaml.isList, yamlGet]
          | i v2 =>
            simp [validate_scenario_schema, pyIn, pySubscript, hv, h2, hrv,
              Yaml.hasField, Yaml.isList, yamlGet]
          | b v2 =>
            simp [validate_scenario_schema, pyIn, pySubscript, hv, h2, hrv,
              Yaml.hasField, Yaml.isList, yamlGet]
          | null =>
            simp [validate_scenario_schema, pyIn, pySubscript, hv, h2, hrv,
              Yaml.hasField, Yaml.isList, yamlGet]
          | map kvs2 =>
            simp [validate_scenario_schema, pyIn, pySubscript, hv, h2, hrv,
              Yaml.hasField, Yaml.isList, yamlGet]
        · have h3n : ymGet kvs "runs" = none :=
            Option.not_isSome_iff_eq_none.mp h3
          simp [validate_scenario_schema, pyIn, pySubscript, hv, h2, h3n,
            Yaml.hasField, yamlGet]
      · simp [validate_scenario_schema, pyIn, pySubscript, hv, h2,
          Yaml.hasField, yamlGet]
    · have h1n : ymGet kvs "scenario" = none :=
        Option.not_isSome_iff_eq_none.mp h1
      simp [validate_scenario_schema, pyIn, Yaml.hasField, h1n, yamlGet]
  | s v =>
    by_cases hc : containsSub v "scenario" = true <;>
      simp [validate_scenario_schema, pyIn, pySubscript, hc, Yaml.hasField,
        yamlGet]
  | list xs =>
    by_cases hc : yamlHasStr xs "scenario" = true <;>
      simp [validate_scenario_schema, pyIn, pySubscript, hc, Yaml.hasField,
        yamlGet]
  | i v =>
    simp [validate_scenario_schema, pyIn, Yaml.hasField, yamlGet]
  | b v =>
    simp [validate_scenario_schema, pyIn, Yaml.hasField, yamlGet]
  | null =>
    simp [validate_scenario_schema, pyIn, Yaml.hasField, yamlGet]

theorem runExecution_env_effective (rid od : String)
    (env : List (String × String)) (dryRun : Bool) (child : ChildObs) :
    (runExecution rid od env dryRun child).1.env_effective = env := by
  unfold runExecution
  by_cases h : dryRun = true <;> simp [h]

theorem runExecution_returncode_zero (rid od : String)
    (env : List (String × String)) (dryRun : Bool) (child : ChildObs)
    (hwhen : (parseHasDuration env).1 = true ∨ child.userInterrupted = true)
    (hobs : child.exitcode.getD 0 < 0 ∨ child.exitcode.getD 0 = 130 ∨
        child.exitcode.getD 0 = 143 ∨ child.exitcode.getD 0 = 0) :
    (runExecution rid od env dryRun child).1.returncode = 0 := by
  have hcond : ((parseHasDuration env).1 || child.userInterrupted) = true := by
    rcases hwhen with h | h <;> simp [h]
  unfold runExecution
  by_cases hdry : dryRun = true
  · simp [hdry]
  · simp only [hdry, if_false, hcond, if_true]
    rcases hobs with h | h | h | h
    · simp [h]
    · simp [h]
    · simp [h]
    · simp [h]

theorem execute_run_ok_inv (run : Run) (timestamp workspace : String)
    (fsExists fsIsFile fsExecBit : Bool) (loadProfile : String → Option Profile)
    (dryRun : Bool) (child : ChildObs) (out : ExecOutcome)
    (hok : execute_run run timestamp workspace fsExists fsIsFile fsExecBit
      loadProfile dryRun child = .ok out) :
    ∃ env, out.result = (runExecution (run.id ++ "_" ++ timestamp)
        (workspace ++ "/runs/" ++ (run.id ++ "_" ++ timestamp) ++ "/outputs")
        env dryRun child).1 ∧
      out.metadata = save_run_metadata out.result ∧
      out.childLaunched = (runExecution (run.id ++ "_" ++ timestamp)
        (workspace ++ "/runs/" ++ (run.id ++ "_" ++ timestamp) ++ "/outputs")
        env dryRun child).2 ∧
      out.metadataWritten = true := by
  simp only [execute_run] at hok
  split at hok
  · exact absurd hok (by simp)
  · split at hok
    · exact absurd hok (by simp)
    · split at hok
      · exact absurd hok (by simp)
      · rename_i env heq
        simp only [Except.ok.injEq] at hok
        subst hok
        exact ⟨env, rfl, rfl, rfl, rfl⟩

/--
C1: for every run executed by the engine whose environment declares a
parseable `DURATION_SECONDS` or that the user interrupted, an observed child
exit code that is negative, 130, 143 — or 0 — is recorded as `returncode = 0`
in the run's `RunResult` and in the persisted `run_metadata.json`.
-/
theorem c1_interrupt_returncode_normalized (run : Run)
    (timestamp workspace : String) (fsExists fsIsFile fsExecBit : Bool)
    (loadProfile : String → Option Profile) (dryRun : Bool) (child : ChildObs)
    (out : ExecOutcome)
    (hok : execute_run run timestamp workspace fsExists fsIsFile fsExecBit
      loadProfile dryRun child = .ok out)
    (hwhen : (∃ str, dictGet out.result.env_effective "DURATION_SECONDS" = some str ∧
        str ≠ "" ∧ (pyParseInt str).isSome = true) ∨ child.userInterrupted = true)
    (hobs : child.exitcode.getD 0 < 0 ∨ child.exitcode.getD 0 = 130 ∨
        child.exitcode.getD 0 = 143 ∨ child.exitcode.getD 0 = 0) :
    out.result.returncode = 0 ∧ out.metadata.returncode = 0 := by
  obtain ⟨env, hres, hmeta, hcl, hmw⟩ :=
    execute_run_ok_inv _ _ _ _ _ _ _ _ _ _ hok
  have henvEq : out.result.env_effective = env := by
    rw [hres, runExecution_env_effective]
  have hwhen2 : (parseHasDuration env).1 = true ∨ child.userInterrupted = true := by
    rcases hwhen with ⟨str, hget, hne, hparse⟩ | h
    · left
      rw [henvEq] at hget
      unfold parseHasDuration
      rw [hget]
      simp only [hne, if_false]
      cases hp : pyParseInt str with
      | some d => simp
      | none =>
        rw [hp] at hparse
        simp at hparse
    · right
      exact h
  have h0 : out.result.returncode = 0 := by
    rw [hres]
    exact runExecution_returncode_zero _ _ _ _ _ hwhen2 hobs
  refine ⟨h0, ?_⟩
  rw [hmeta]
  simpa [save_run_metadata] using h0

/-- Closed witness for C1 at a duration-bounded run observed to exit 130. -/
theorem c1_witness :
    c1Out.result.returncode = 0 ∧ c1Out.metadata.returncode = 0 :=
  c1_interrupt_returncode_normalized c1Run "20260101_120000" "lab"
    true true true (fun _ => none) false c1Child c1Out
    (by rfl)
    (Or.inl ⟨"60", by rfl, by decide, by rfl⟩)
    (by decide)

/--
C3: when `execute_run` succeeds in dry-run mode, no child process is
launched, and the run result records returncode 0, the literal dry-run
stdout marker, empty stderr and zero duration; `run_metadata.json` is still
written and carries the same fields.
-/
theorem c3_dry_run_synthesized_result (run : Run)
    (timestamp workspace : String) (fsExists fsIsFile fsExecBit : Bool)
    (loadProfile : String → Option Profile) (child : ChildObs)
    (out : ExecOutcome)
    (hok : execute_run run timestamp workspace fsExists fsIsFile fsExecBit
      loadProfile true child = .ok out) :
    out.childLaunched = false ∧ out.result.returncode = 0 ∧
    out.result.stdout = "[dry run - no output]" ∧ out.result.stderr = "" ∧
    out.result.duration_s = 0 ∧ out.metadataWritten = true ∧
    out.metadata.returncode = 0 ∧
    out.metadata.stdout = "[dry run - no output]" := by
  obtain ⟨env, hres, hmeta, hcl, hmw⟩ :=
    execute_run_ok_inv _ _ _ _ _ _ _ _ _ _ hok
  have hrr : runExecution (run.id ++ "_" ++ timestamp)
      (workspace ++ "/runs/" ++ (run.id ++ "_" ++ timestamp) ++ "/outputs")
      env true child =
      ({ run_id := run.id ++ "_" ++ timestamp
         duration_s := 0
         returncode := 0
         stdout := "[dry run - no output]"
         stderr := ""
         env_effective := env
         outputs_dir := workspace ++ "/runs/" ++ (run.id ++ "_" ++ timestamp)
           ++ "/outputs" }, false) := by
    simp [runExecution]
  rw [hrr] at hres hcl
  refine ⟨hcl, by rw [hres], by rw [hres], by rw [hres], by rw [hres], hmw, ?_, ?_⟩
  · rw [hmeta, hres]
    rfl
  · rw [hmeta, hres]
    rfl

/-- Closed witness for C3 at a concrete dry run. -/
theorem c3_witness :
    c3Out.childLaunched = false ∧ c3Out.result.returncode = 0 ∧
    c3Out.result.stdout = "[dry run - no output]" ∧ c3Out.result.stderr = "" ∧
    c3Out.result.duration_s = 0 ∧ c3Out.metadataWritten = true ∧
    c3Out.metadata.returncode = 0 ∧
    c3Out.metadata.stdout = "[dry run - no output]" :=
  c3_dry_run_synthesized_result c3RunSpec "20260101_120000" "lab"
    true true true (fun _ => none) c3Child c3Out (by rfl)

/--
C9 evaluation: at a run whose environment still contains a placeholder, the
engine raises `PlaceholderNotConfigured` whose message lists the offending
`KEY=VALUE` pair, but whose hint names the run's *script* path
(`execute_run` passes `run.script` as the error's `scenario` argument,
`core.py` line 152), not the scenario file the user should edit.
-/
theorem c9_placeholder_hint_names_script :
    execute_run c9Run "20260101_120000" "lab" true true true (fun _ => none)
      false c9Child =
    .error (.placeholderNotConfigured
      "Scenario contains unconfigured placeholders:\n     TARGET_IP=TARGET_IP_PLACEHOLDER"
      ("Edit scripts/attacks/denial_of_service/mqtt_flood.py and replace " ++
        "placeholder values with your configuration.")) := by
  rfl

/--
C10: the placeholder scan runs on the declared environment (plus `RUN_ID`
and `OUT_DIR`) before any profile is loaded, so a `TOOL_ARGS` value injected
from a profile is never checked: a run referencing a profile whose
`tool_args` still contains `_PLACEHOLDER` proceeds to launch the child with
that unconfigured value instead of raising `PlaceholderNotConfigured`.
-/
theorem c10_profile_tool_args_unchecked (run : Run)
    (timestamp workspace : String) (loadProfile : String → Option Profile)
    (child : ChildObs) (p : String) (prof : Profile)
    (hprof : run.profile = some p)
    (hload : loadProfile p = some prof)
    (hclean : detect_placeholders
      (dictSet (dictSet run.env "RUN_ID" (run.id ++ "_" ++ timestamp)) "OUT_DIR"
        (workspace ++ "/runs/" ++ (run.id ++ "_" ++ timestamp) ++ "/outputs")) = [])
    (hbad : containsSub prof.tool_args "_PLACEHOLDER" = true) :
    ∃ out, execute_run run timestamp workspace true true true loadProfile
        false child = .ok out ∧
      out.childLaunched = true ∧
      dictGet out.result.env_effective "TOOL_ARGS" = some prof.tool_args := by
  simp only [execute_run, hprof, hload, hclean, validate_script_ok]
  refine ⟨_, rfl, ?_, ?_⟩
  · simp [runExecution]
  · rw [runExecution_env_effective, dictGet_dictSet_self]

/-- Closed witness for C10: a profile whose `tool_args` is still the literal
placeholder is injected unchecked. -/
theorem c10_witness :
    ∃ out, execute_run c10Run "20260101_120000" "lab" true true true
        c10LoadProfile false c10Child = .ok out ∧
      out.childLaunched = true ∧
      dictGet out.result.env_effective "TOOL_ARGS" = some c10Profile.tool_args :=
  c10_profile_tool_args_unchecked c10Run "20260101_120000" "lab"
    c10LoadProfile c10Child "profiles/nmap_fast.yaml" c10Profile
    (by rfl) (by rfl) (by rfl) (by rfl)

/--
C4: the placeholder scan reports exactly the environment bindings whose
value contains the substring `_PLACEHOLDER`: every binding whose value
contains it contributes its `KEY=VALUE` entry, and every reported entry
comes from a binding whose value contains it.
-/
theorem c4_detect_placeholders_exact (env : List (String × String)) :
    (∀ k v, (k, v) ∈ env → (∃ a b, a ++ "_PLACEHOLDER".data ++ b = v.data) →
      (k ++ "=" ++ v) ∈ detect_placeholders env) ∧
    (∀ s ∈ detect_placeholders env, ∃ k v, (k, v) ∈ env ∧ s = k ++ "=" ++ v ∧
      ∃ a b, a ++ "_PLACEHOLDER".data ++ b = v.data) := by
  constructor
  · intro k v hmem hex
    have hc : containsSub v "_PLACEHOLDER" = true := (containsSub_iff _ _).mpr hex
    rw [detect_placeholders, List.mem_filterMap]
    exact ⟨(k, v), hmem, by simp [hc]⟩
  · intro s hs
    rw [detect_placeholders, List.mem_filterMap] at hs
    obtain ⟨⟨k, v⟩, hmem, hf⟩ := hs
    by_cases hc : containsSub v "_PLACEHOLDER" = true
    · simp only [hc, if_true] at hf
      obtain rfl := Option.some.injEq _ _ ▸ hf
      exact ⟨k, v, hmem, by simpa using hf.symm ▸ rfl, (containsSub_iff _ _).mp hc⟩
    · simp [hc] at hf

/-- Closed witness for C4 at a concrete environment. -/
theorem c4_witness :
    ("TARGET_IP" ++ "=" ++ "TARGET_IP_PLACEHOLDER") ∈
      detect_placeholders [("TARGET_IP", "TARGET_IP_PLACEHOLDER"), ("RATE", "500")] :=
  (c4_detect_placeholders_exact
      [("TARGET_IP", "TARGET_IP_PLACEHOLDER"), ("RATE", "500")]).1
    "TARGET_IP" "TARGET_IP_PLACEHOLDER" (by simp)
    ⟨"TARGET_IP".data, [], by decide⟩

theorem ymGet_append_right (kvs : List (String × Yaml)) (k : String) (v : Yaml)
    (h : ymGet kvs k = none) : ymGet (kvs ++ [(k, v)]) k = some v := by
  induction kvs with
  | nil => simp [ymGet]
  | cons kv rest ih =>
    obtain ⟨k2, v2⟩ := kv
    by_cases hk : k2 = k
    · simp [ymGet, hk] at h
    · simp only [List.cons_append]
      simp only [ymGet, hk, if_false] at h ⊢
      exact ih h

theorem addDurationRun_shape (r r2 : Yaml) (m : Bool)
    (h : addDurationRun r = some (r2, m)) :
    (m = false → r2 = r) ∧
    (m = true → ∃ kvs envkvs, r = .map kvs ∧
      ymGet kvs "env" = some (.map envkvs) ∧
      ymGet envkvs "DURATION_SECONDS" = none ∧
      r2 = .map (ymSet kvs "env" (.map (envkvs ++
        [("DURATION_SECONDS", .s "DURATION_SECONDS_PLACEHOLDER")])))) := by
  cases r with
  | map kvs =>
    cases henv : ymGet kvs "env" with
    | none =>
      simp only [addDurationRun, henv, Option.some.injEq, Prod.mk.injEq] at h
      obtain ⟨h1, h2⟩ := h
      subst h1
      subst h2
      exact ⟨fun _ => rfl, fun hm => absurd hm (by simp)⟩
    | some envval =>
      cases envval with
      | map envkvs =>
        by_cases hd : (ymGet envkvs "DURATION_SECONDS").isSome = true
        · simp only [addDurationRun, henv, hd, if_true, Option.some.injEq,
            Prod.mk.injEq] at h
          obtain ⟨h1, h2⟩ := h
          subst h1
          subst h2
          exact ⟨fun _ => rfl, fun hm => absurd hm (by simp)⟩
        · have hd2 : ymGet envkvs "DURATION_SECONDS" = none :=
            Option.not_isSome_iff_eq_none.mp hd
          simp only [addDurationRun, henv, hd2, Option.isSome_none,
            Bool.false_eq_true, if_false, Option.some.injEq, Prod.mk.injEq] at h
          obtain ⟨h1, h2⟩ := h
          subst h1
          subst h2
          refine ⟨fun hm => absurd hm (by simp), fun _ => ?_⟩
          exact ⟨kvs, envkvs, rfl, henv, hd2, rfl⟩
      | s v =>
        by_cases hc : containsSub v "DURATION_SECONDS" = true
        · simp only [addDurationRun, henv, hc, if_true, Option.some.injEq,
            Prod.mk.injEq] at h
          obtain ⟨h1, h2⟩ := h
          subst h1
          subst h2
          exact ⟨fun _ => rfl, fun hm => absurd hm (by simp)⟩
        · simp [addDurationRun, henv, hc] at h
      | list ys =>
        by_cases hc : yamlHasStr ys "DURATION_SECONDS" = true
        · simp only [addDurationRun, henv, hc, if_true, Option.some.injEq,
            Prod.mk.injEq] at h
          obtain ⟨h1, h2⟩ := h
          subst h1
          subst h2
          exact ⟨fun _ => rfl, fun hm => absurd hm (by simp)⟩
        · simp [addDurationRun, henv, hc] at h
      | i v => simp [addDurationRun, henv] at h
      | b v => simp [addDurationRun, henv] at h
      | null => simp [addDurationRun, henv] at h
  | s v =>
    by_cases hc : containsSub v "env" = true
    · simp [addDurationRun, hc] at h
    · simp only [addDurationRun, hc, Bool.false_eq_true, if_false,
        Option.some.injEq, Prod.mk.injEq] at h
      obtain ⟨h1, h2⟩ := h
      subst h1
      subst h2
      exact ⟨fun _ => rfl, fun hm => absurd hm (by simp)⟩
  | list xs =>
    by_cases hc : yamlHasStr xs "env" = true
    · simp [addDurationRun, hc] at h
    · simp only [addDurationRun, hc, Bool.false_eq_true, if_false,
        Option.some.injEq, Prod.mk.injEq] at h
      obtain ⟨h1, h2⟩ := h
      subst h1
      subst h2
      exact ⟨fun _ => rfl, fun hm => absurd hm (by simp)⟩
  | i v => simp [addDurationRun] at h
  | b v => simp [addDurationRun] at h
  | null => simp [addDurationRun] at h

theorem addDurationRun_idem (r r2 : Yaml) (m : Bool)
    (h : addDurationRun r = some (r2, m)) :
    addDurationRun r2 = some (r2, false) := by
  obtain ⟨hfalse, htrue⟩ := addDurationRun_shape r r2 m h
  cases m with
  | false =>
    rw [hfalse rfl] at h ⊢
    exact h
  | true =>
    obtain ⟨kvs, envkvs, hr, henv, hd, hr2⟩ := htrue rfl
    subst hr2
    have hget := ymGet_ymSet_self kvs "env" (.map (envkvs ++
      [("DURATION_SECONDS", .s "DURATION_SECONDS_PLACEHOLDER")]))
    have happ := ymGet_append_right envkvs "DURATION_SECONDS"
      (.s "DURATION_SECONDS_PLACEHOLDER") hd
    simp [addDurationRun, hget, happ]

theorem addDurationRuns_idem (runs runs2 : List Yaml) (m : Bool)
    (h : addDurationRuns runs = some (runs2, m)) :
    addDurationRuns runs2 = some (runs2, false) := by
  induction runs generalizing runs2 m with
  | nil =>
    simp only [addDurationRuns, Option.some.injEq, Prod.mk.injEq] at h
    obtain ⟨h1, h2⟩ := h
    subst h1
    simp [addDurationRuns]
  | cons r rs ih =>
    cases hr : addDurationRun r with
    | none => simp [addDurationRuns, hr] at h
    | some rm =>
      obtain ⟨r2, m1⟩ := rm
      cases hrs : addDurationRuns rs with
      | none => simp [addDurationRuns, hr, hrs] at h
      | some rsm =>
        obtain ⟨rs2, ms⟩ := rsm
        simp only [addDurationRuns, hr, hrs, Option.some.injEq,
          Prod.mk.injEq] at h
        obtain ⟨h1, h2⟩ := h
        subst h1
        have hi1 := addDurationRun_idem r r2 m1 hr
        have hi2 := ih rs2 ms hrs
        simp [addDurationRuns, hi1, hi2]

theorem add_duration_unmodified (data : Yaml)
    (h : (add_duration_to_yaml data).2 = false) :
    (add_duration_to_yaml data).1 = data := by
  cases data with
  | map kvs =>
    cases hruns : ymGet kvs "runs" with
    | none => simp [add_duration_to_yaml, hruns]
    | some val =>
      cases val with
      | list runs =>
        cases hfold : addDurationRuns runs with
        | none => simp [add_duration_to_yaml, hruns, hfold]
        | some rm =>
          obtain ⟨runs2, modified⟩ := rm
          cases modified with
          | false => simp [add_duration_to_yaml, hruns, hfold]
          | true => simp [add_duration_to_yaml, hruns, hfold] at h
      | s v => simp [add_duration_to_yaml, hruns]
      | i v => simp [add_duration_to_yaml, hruns]
      | b v => simp [add_duration_to_yaml, hruns]
      | null => simp [add_duration_to_yaml, hruns]
      | map kvs2 => simp [add_duration_to_yaml, hruns]
  | s v => simp [add_duration_to_yaml]
  | i v => simp [add_duration_to_yaml]
  | b v => simp [add_duration_to_yaml]
  | null => simp [add_duration_to_yaml]
  | list xs => simp [add_duration_to_yaml]

theorem add_duration_to_yaml_idem (data : Yaml) :
    add_duration_to_yaml (add_duration_to_yaml data).1 =
      ((add_duration_to_yaml data).1, false) := by
  cases data with
  | map kvs =>
    cases hruns : ymGet kvs "runs" with
    | none => simp [add_duration_to_yaml, hruns]
    | some val =>
      cases val with
      | list runs =>
        cases hfold : addDurationRuns runs with
        | none => simp [add_duration_to_yaml, hruns, hfold]
        | some rm =>
          obtain ⟨runs2, modified⟩ := rm
          cases modified with
          | false => simp [add_duration_to_yaml, hruns, hfold]
          | true =>
            have hget := ymGet_ymSet_self kvs "runs" (.list runs2)
            have hidem := addDurationRuns_idem runs runs2 true hfold
            simp [add_duration_to_yaml, hruns, hfold, hget, hidem]
      | s v => simp [add_duration_to_yaml, hruns]
      | i v => simp [add_duration_to_yaml, hruns]
      | b v => simp [add_duration_to_yaml, hruns]
      | null => simp [add_duration_to_yaml, hruns]
      | map kvs2 => simp [add_duration_to_yaml, hruns]
  | s v => simp [add_duration_to_yaml]
  | i v => simp [add_duration_to_yaml]
  | b v => simp [add_duration_to_yaml]
  | null => simp [add_duration_to_yaml]
  | list xs => simp [add_duration_to_yaml]

/--
C5: the `DURATION_SECONDS` backfill is idempotent.  A run entry is modified
only when it has an `env` mapping that does not already define
`DURATION_SECONDS` (the placeholder is then appended to it); the file is
rewritten only when at least one run was modified (reported flag `false`
means the on-disk document is unchanged); and a second application of the
transformation to the output of the first changes nothing and reports
`false` (zero modified files).
-/
theorem c5_add_duration_idempotent (data r r2 : Yaml) (m : Bool) :
    (addDurationRun r = some (r2, m) →
      ((m = false → r2 = r) ∧
       (m = true → ∃ kvs envkvs, r = .map kvs ∧
          ymGet kvs "env" = some (.map envkvs) ∧
          ymGet envkvs "DURATION_SECONDS" = none ∧
          r2 = .map (ymSet kvs "env" (.map (envkvs ++
            [("DURATION_SECONDS", .s "DURATION_SECONDS_PLACEHOLDER")])))))) ∧
    ((add_duration_to_yaml data).2 = false →
      (add_duration_to_yaml data).1 = data) ∧
    add_duration_to_yaml (add_duration_to_yaml data).1 =
      ((add_duration_to_yaml data).1, false) :=
  ⟨fun h => addDurationRun_shape r r2 m h,
   fun h => add_duration_unmodified data h,
   add_duration_to_yaml_idem data⟩

/-- Closed witness for C5 at a concrete scenario document and run entry. -/
theorem c5_witness :
    (∃ kvs envkvs, c5Run = .map kvs ∧ ymGet kvs "env" = some (.map envkvs) ∧
       ymGet envkvs "DURATION_SECONDS" = none ∧
       c5Run2 = .map (ymSet kvs "env" (.map (envkvs ++
         [("DURATION_SECONDS", .s "DURATION_SECONDS_PLACEHOLDER")])))) ∧
    add_duration_to_yaml (add_duration_to_yaml c5Doc).1 =
      ((add_duration_to_yaml c5Doc).1, false) :=
  ⟨(((c5_add_duration_idempotent c5Doc c5Run c5Run2 true).1 (by rfl)).2 rfl),
   (c5_add_duration_idempotent c5Doc c5Run c5Run2 true).2.2⟩

/--
C6: after one physics update with draws in the documented uniform ranges,
`temp` stays in `[15, 90]` and `pressure` stays at or above `800` (given
they started in those ranges); when the decrement would push the battery
below `10` it is reset to the recharge draw in `[90, 100]`, otherwise the
battery decreases by exactly the decrement, which lies in `[0.001, 0.01]`.
-/
theorem c6_update_physics_invariants (d : IotDevice)
    (dTemp dBatt dPress recharge : ℚ)
    (htemp : 15 ≤ d.temp ∧ d.temp ≤ 90)
    (hpress : 800 ≤ d.pressure)
    (hdT : -(1/2) ≤ dTemp ∧ dTemp ≤ 1/2)
    (hdB : 1/1000 ≤ dBatt ∧ dBatt ≤ 1/100)
    (hdP : -1 ≤ dPress ∧ dPress ≤ 1)
    (hrech : 90 ≤ recharge ∧ recharge ≤ 100) :
    (15 ≤ (update_physics d dTemp dBatt dPress recharge).temp ∧
      (update_physics d dTemp dBatt dPress recharge).temp ≤ 90) ∧
    800 ≤ (update_physics d dTemp dBatt dPress recharge).pressure ∧
    (d.battery - dBatt < 10 →
      90 ≤ (update_physics d dTemp dBatt dPress recharge).battery ∧
      (update_physics d dTemp dBatt dPress recharge).battery ≤ 100) ∧
    (¬ d.battery - dBatt < 10 →
      (update_physics d dTemp dBatt dPress recharge).battery =
        d.battery - dBatt ∧ 1/1000 ≤ dBatt ∧ dBatt ≤ 1/100) := by
  unfold update_physics
  refine ⟨⟨le_max_left _ _, ?_⟩, le_max_left _ _, ?_, ?_⟩
  · exact max_le (by norm_num) (min_le_right _ _)
  · intro hb
    simp only [if_pos hb]
    exact hrech
  · intro hb
    simp only [if_neg hb]
    exact ⟨by trivial, hdB⟩

/-- Closed witness for C6: a battery at the recharge threshold. -/
theorem c6_witness :
    90 ≤ (update_physics ⟨20, 10, 1000⟩ 0 (1/100) 0 95).battery ∧
    (update_physics ⟨20, 10, 1000⟩ 0 (1/100) 0 95).battery ≤ 100 :=
  (c6_update_physics_invariants ⟨20, 10, 1000⟩ 0 (1/100) 0 95
    (by norm_num) (by norm_num) (by norm_num) (by norm_num) (by norm_num)
    (by norm_num)).2.2.1 (by norm_num)

/--
C7: in the MQTT-to-SQL bridge, every message whose payload decodes as JSON
(object or not) increments the received counter; for an object payload the
database write extracts `id` and `v` with defaults `0` / `0.0`: an `id` of 0
(or absent) issues no database operation and leaves the written counter
unchanged, while a nonzero `id` issues exactly one UPDATE with parameters
`(v, id)` and, on success, increments the written counter.  A non-object
payload also issues no database operation and leaves written unchanged.
-/
theorem c7_bridge_write_semantics (stats : BridgeStats) (data : JVal)
    (dbOk : Bool) :
    (on_message stats (some data) dbOk).1.received = stats.received + 1 ∧
    (∀ kvs, data = JVal.obj kvs →
      ((pyEqZero ((jGet kvs "id").getD (.num 0)) = true →
        (on_message stats (some data) dbOk).2 = none ∧
        (on_message stats (some data) dbOk).1.written = stats.written) ∧
       (pyEqZero ((jGet kvs "id").getD (.num 0)) = false → dbOk = true →
        (on_message stats (some data) dbOk).2 =
          some ((jGet kvs "v").getD (.num 0), (jGet kvs "id").getD (.num 0)) ∧
        (on_message stats (some data) dbOk).1.written = stats.written + 1))) ∧
    ((∀ kvs, data ≠ JVal.obj kvs) →
      (on_message stats (some data) dbOk).2 = none ∧
      (on_message stats (some data) dbOk).1.written = stats.written) := by
  cases data with
  | obj kvs =>
    refine ⟨?_, ?_, fun hne => absurd rfl (hne kvs)⟩
    · by_cases hid : pyEqZero ((jGet kvs "id").getD (.num 0)) = true
      · simp [on_message, write_to_sql, hid]
      · have hid2 : pyEqZero ((jGet kvs "id").getD (.num 0)) = false := by
          simpa using hid
        by_cases hdb : dbOk = true <;>
          simp [on_message, write_to_sql, hid2, hdb]
    · intro kvs2 heq
      injection heq with h
      subst h
      constructor
      · intro hid
        constructor <;> simp [on_message, write_to_sql, hid]
      · intro hid2 hdb
        constructor <;> simp [on_message, write_to_sql, hid2, hdb]
  | num q =>
    refine ⟨?_, fun kvs h => absurd h (by simp), fun _ => ?_⟩ <;>
      simp [on_message]
  | str v =>
    refine ⟨?_, fun kvs h => absurd h (by simp), fun _ => ?_⟩ <;>
      simp [on_message]
  | bool b =>
    refine ⟨?_, fun kvs h => absurd h (by simp), fun _ => ?_⟩ <;>
      simp [on_message]
  | null =>
    refine ⟨?_, fun kvs h => absurd h (by simp), fun _ => ?_⟩ <;>
      simp [on_message]
  | arr xs =>
    refine ⟨?_, fun kvs h => absurd h (by simp), fun _ => ?_⟩ <;>
      simp [on_message]

/-- Closed witness for C7: an object payload with nonzero id and a
successful database write, and an array payload that still increments the
received counter. -/
theorem c7_witness :
    (on_message ⟨5, 2, 1⟩
      (some (.obj [("id", .num 7), ("v", .num 3)])) true).1.received = 5 + 1 ∧
    (on_message ⟨5, 2, 1⟩
      (some (.obj [("id", .num 7), ("v", .num 3)])) true).2 =
      some ((jGet [("id", .num 7), ("v", .num 3)] "v").getD (.num 0),
        (jGet [("id", .num 7), ("v", .num 3)] "id").getD (.num 0)) ∧
    (on_message ⟨5, 2, 1⟩
      (some (.obj [("id", .num 7), ("v", .num 3)])) true).1.written = 2 + 1 ∧
    (on_message ⟨5, 2, 1⟩ (some (.arr [])) true).1.received = 5 + 1 :=
  ⟨(c7_bridge_write_semantics ⟨5, 2, 1⟩
      (.obj [("id", .num 7), ("v", .num 3)]) true).1,
   (((c7_bridge_write_semantics ⟨5, 2, 1⟩
      (.obj [("id", .num 7), ("v", .num 3)]) true).2.1
        [("id", .num 7), ("v", .num 3)] rfl).2 (by decide) rfl).1,
   (((c7_bridge_write_semantics ⟨5, 2, 1⟩
      (.obj [("id", .num 7), ("v", .num 3)]) true).2.1
        [("id", .num 7), ("v", .num 3)] rfl).2 (by decide) rfl).2,
   (c7_bridge_write_semantics ⟨5, 2, 1⟩ (.arr []) true).1⟩

/--
C8: for every integer `LABEL_LEN` input, the DNS beacon label has length
exactly `min 63 (max 1 n)` — 1, 5 and 63 for inputs 0, 5 and 100 — and
every character of the label is a lowercase letter or a digit.
-/
theorem c8_label_length_and_alphabet (pick : Nat → Fin 36) (n : Int) :
    (high_entropy_label pick n).length = (min 63 (max 1 n)).toNat ∧
    ∀ c ∈ (high_entropy_label pick n).data,
      (('a' ≤ c ∧ c ≤ 'z') ∨ ('0' ≤ c ∧ c ≤ '9')) := by
  constructor
  · show (String.mk _).length = _
    simp only [String.length, List.length_map, List.length_range]
    congr 1
    rw [max_min_distrib_left]
    norm_num
  · intro c hc
    simp only [high_entropy_label, List.mem_map, List.mem_range] at hc
    obtain ⟨idx, _, hceq⟩ := hc
    have hmem : c ∈ labelAlphabet := by
      rw [← hceq]
      exact List.get_mem labelAlphabet _ _
    have hall : ∀ x ∈ labelAlphabet,
        (('a' ≤ x ∧ x ≤ 'z') ∨ ('0' ≤ x ∧ x ≤ '9')) := by decide
    exact hall c hmem

/-- Closed witness for C8: fixed index draws, requested length 5. -/
theorem c8_witness :
    (high_entropy_label c8Pick 5).length = (min 63 (max 1 (5 : Int))).toNat ∧
    (('a' ≤ 'q' ∧ 'q' ≤ 'z') ∨ ('0' ≤ 'q' ∧ 'q' ≤ '9')) :=
  ⟨(c8_label_length_and_alphabet c8Pick 5).1,
   (c8_label_length_and_alphabet c8Pick 5).2 'q' (by decide)⟩


/-- Closed witness for C2: a mapping-shaped document with `scenario.name`
but no `runs` key fails validation. -/
theorem c2_witness :
    validate_scenario_schema c2WitnessDoc ≠ Except.ok () :=
  (c2_validate_scenario_schema_fails_iff c2WitnessDoc
      (by
        intro v hv
        simp [c2WitnessDoc, yamlGet, ymGet] at hv
        exact ⟨_, hv.symm⟩)
      (by
        intro xs r hx
        simp [c2WitnessDoc, yamlGet, ymGet] at hx)).mpr
    (Or.inr (Or.inr (Or.inl (by decide))))
